import Mathlib

/-!
Verification of the session/token-lifecycle manager of the intern-hub
frontend (file `src/lib/api.ts`, context `src/contexts/AuthContext.tsx`).

The source file contains two revisions of the `ApiClient` class: a plain
variant (lines 1-393) and a second variant (lines 396-1162) that adds
HTTPS rewriting for the production API host to the request interceptor.
Both are embedded below.  JavaScript strings become `String`, nullable or
optional values become `Option`, JS truthiness of a string is explicit
(`truthyO`), `localStorage` becomes a two-field record (the only keys the
client ever touches are `access_token` and `refresh_token`), and the
outcome of every network call is an explicit parameter.
-/

namespace InternHub

/-! ## JavaScript string primitives -/

/-- Truthiness of a JS `string | null | undefined`: `null`, `undefined`
and the empty string are falsy. -/
def truthyO : Option String → Bool
  | some s => !s.isEmpty
  | none => false

/-- The JS `a || b` idiom on a possibly-absent string: the default is used
when the string is absent or empty. -/
def jsOr (o : Option String) (dflt : String) : String :=
  match o with
  | some s => if s.isEmpty then dflt else s
  | none => dflt

/-- Whether `pat` occurs at the head of `s` (character-level). -/
def leadsWith : List Char → List Char → Bool
  | [], _ => true
  | _ :: _, [] => false
  | a :: as, b :: bs => a == b && leadsWith as bs

/-- Whether `pat` occurs somewhere in `s` (character-level). -/
def containsSeq : List Char → List Char → Bool
  | [], pat => pat.isEmpty
  | c :: rest, pat => leadsWith pat (c :: rest) || containsSeq rest pat

/-- JS `s.includes(pat)`. -/
def jsIncludes (s pat : String) : Bool := containsSeq s.data pat.data

/-- JS `s?.includes(pat)` with optional chaining: absent receiver gives
`false` (`undefined` is falsy). -/
def jsIncludesO (o : Option String) (pat : String) : Bool :=
  match o with
  | some s => jsIncludes s pat
  | none => false

/-- JS `s.startsWith(pat)`. -/
def jsStarts (s pat : String) : Bool := leadsWith pat.data s.data

/-- Replace every (non-overlapping, left-to-right) occurrence of a
nonempty `pat` by `repl`, as JS `s.replace(/pat/g, repl)` does for a
literal pattern.  Structural recursion on a fuel that starts at the
length of the scanned list: every step consumes at least one character
and one unit of fuel, so fuel never runs out on the modelled calls. -/
def replaceFuel (pat repl : List Char) : Nat → List Char → List Char
  | 0, s => s
  | _ + 1, [] => []
  | fuel + 1, c :: rest =>
    if !pat.isEmpty && leadsWith pat (c :: rest) then
      repl ++ replaceFuel pat repl fuel ((c :: rest).drop pat.length)
    else c :: replaceFuel pat repl fuel rest

/-- JS `s.replace(anchored http pattern, https)`: rewrite a leading
`http://` to `https://`, leave anything else alone. -/
def jsHttpsOnce (s : String) : String :=
  if jsStarts s "http://" then "https://" ++ String.mk (s.data.drop 7) else s

/-- JS global replace of `http://` by `https://`. -/
def jsHttpsAll (s : String) : String :=
  String.mk (replaceFuel "http://".data "https://".data s.data.length s.data)

/-- JS global replace of one literal substring by another. -/
def jsReplaceAll (s pat repl : String) : String :=
  String.mk (replaceFuel pat.data repl.data s.data.length s.data)

/-- The part of `s` before the first occurrence of `sep`, mirroring JS
`s.split(sep)[0]`: the whole string when `sep` does not occur, and the
first character when `sep` is empty (JS splits into characters then). -/
def takeUntilSeq (pat : List Char) : List Char → List Char
  | [] => []
  | c :: rest =>
    if leadsWith pat (c :: rest) then [] else c :: takeUntilSeq pat rest

/-- JS `s.split(sep)[0]` (for nonempty `s`; the modelled flows never split
an empty string). -/
def jsSplitHead (s sep : String) : String :=
  if sep.data.isEmpty then
    match s.data with
    | [] => ""
    | c :: _ => String.mk [c]
  else String.mk (takeUntilSeq sep.data s.data)

/-! ## Data model

Source: `src/lib/api.ts`.  The in-memory fields `accessToken` and
`refreshToken` of `ApiClient`, the two `localStorage` keys it reads and
writes, and the `window.location.href` redirect target. -/

/-- Durable client-side storage as the client uses it: exactly the two
keys `access_token` and `refresh_token` are ever read or written
(`localStorage.getItem`/`setItem`/`removeItem` calls in the source). -/
structure Storage where
  access_token : Option String
  refresh_token : Option String
deriving DecidableEq, Repr

/-- The mutable state of the `ApiClient` singleton, plus the redirect the
response interceptor may perform (`window.location.href = ...`). -/
structure ClientState where
  accessToken : Option String
  refreshToken : Option String
  storage : Storage
  redirect : Option String
deriving DecidableEq, Repr

/-- Request headers as the client manipulates them. -/
structure Headers where
  authorization : Option String := none
  contentType : Option String := none
deriving DecidableEq, Repr

/-- An axios request config as the interceptors use it: `url`, `baseURL`,
`method`, `headers`, and the `_retry` flag the response interceptor pins
onto a request it has retried. -/
structure ReqConfig where
  url : Option String := none
  baseURL : Option String := none
  method : Option String := none
  headers : Headers := {}
  retry : Bool := false
deriving DecidableEq, Repr

/-- Backend auth payload (`AuthResponse` in `src/types`). -/
structure AuthResponse where
  access_token : String
  token_type : String := "bearer"
  expires_in : Nat := 0
  refresh_token : Option String := none
deriving DecidableEq, Repr

/-- An axios error as the response interceptor inspects it: the config of
the failed request and `error.response?.status` (absent on a pure network
failure). -/
structure AxiosErr where
  config : ReqConfig
  respStatus : Option Nat
deriving DecidableEq, Repr

/-! ## Token storage operations (`src/lib/api.ts` lines 101-130; the
second variant, lines 780-809, is textually identical) -/

/-- `setAccessToken`: store the token in memory, and mirror it into the
durable `access_token` key (`setItem` when truthy, `removeItem`
otherwise). -/
def setAccessToken (st : ClientState) (token : Option String) : ClientState :=
  let st := { st with accessToken := token }
  if truthyO token then
    { st with storage := { st.storage with access_token := token } }
  else
    { st with storage := { st.storage with access_token := none } }

/-- `setRefreshToken`: same shape, for the `refresh_token` key. -/
def setRefreshToken (st : ClientState) (token : Option String) : ClientState :=
  let st := { st with refreshToken := token }
  if truthyO token then
    { st with storage := { st.storage with refresh_token := token } }
  else
    { st with storage := { st.storage with refresh_token := none } }

/-- `clearTokens`: null both in-memory tokens and remove both durable
keys. -/
def clearTokens (st : ClientState) : ClientState :=
  { st with
    accessToken := none
    refreshToken := none
    storage := { access_token := none, refresh_token := none } }

/-- Constructor body (lines 38-44): load both tokens from durable storage
into memory. -/
def initClient (storage : Storage) : ClientState :=
  { accessToken := storage.access_token
    refreshToken := storage.refresh_token
    storage := storage
    redirect := none }

/-! ## Variant-1 request interceptor (lines 47-55) -/

/-- The request interceptor of the first variant: attach
`Authorization: Bearer <token>` when an access token is held (truthy),
pass the config through untouched otherwise. -/
def interceptRequest (st : ClientState) (cfg : ReqConfig) : ReqConfig :=
  if truthyO st.accessToken then
    { cfg with headers := { cfg.headers with
        authorization := some ("Bearer " ++ st.accessToken.getD "") } }
  else cfg

/-! ## Response interceptor (lines 58-98; identical logic in the second
variant, lines 742-776) -/

/-- Outcome of the `refreshAccessToken` call as the interceptor observes
it: a token payload, a rejection carrying an HTTP status, or a pure
network/timeout failure with no response. -/
inductive RefreshOutcome where
  | ok (resp : AuthResponse)
  | errResp (status : Nat)
  | errNetwork
deriving DecidableEq, Repr

/-- What the interceptor hands back to axios: propagate an error, or
re-issue a request. -/
inductive InterceptResult where
  | reject (e : AxiosErr)
  | retry (req : ReqConfig)
deriving DecidableEq, Repr

/-- Line 67: `originalRequest?.url?.includes(slash auth slash refresh)`. -/
def isRefreshEndpoint (cfg : ReqConfig) : Bool :=
  jsIncludesO cfg.url "/auth/refresh"

/-- Line 70 guard: a 401, not already retried, not the refresh endpoint,
and a truthy refresh token held. -/
def shouldRefresh (st : ClientState) (e : AxiosErr) : Bool :=
  (e.respStatus == some 401) && !e.config.retry
    && !isRefreshEndpoint e.config && truthyO st.refreshToken

/-- The response-error handler (lines 60-97).  `refresh` is the backend
refresh endpoint, applied to the stored refresh token.  Returns the new
client state, the interceptor result, and whether a refresh call was
issued. -/
def handleResponseError (st : ClientState) (e : AxiosErr)
    (refresh : String → RefreshOutcome) : ClientState × InterceptResult × Bool :=
  if shouldRefresh st e then
    let originalRequest := { e.config with retry := true }
    match refresh (st.refreshToken.getD "") with
    | .ok newTokens =>
      let st := setAccessToken st (some newTokens.access_token)
      let st :=
        if truthyO newTokens.refresh_token then
          setRefreshToken st newTokens.refresh_token
        else st
      let originalRequest := { originalRequest with
        headers := { originalRequest.headers with
          authorization := some ("Bearer " ++ newTokens.access_token) } }
      (st, .retry originalRequest, true)
    | .errResp status =>
      let st :=
        if status == 401 || status == 403 then
          { clearTokens st with redirect := some "/login" }
        else st
      (st, .reject e, true)
    | .errNetwork => (st, .reject e, true)
  else
    (st, .reject e, false)

/-! ## Auth endpoints (lines 152-193) -/

/-- `signIn` success path (lines 152-159): store the returned access
token, and the refresh token only when the response carries a truthy
one. -/
def signIn (st : ClientState) (resp : AuthResponse) : ClientState :=
  let st := setAccessToken st (some resp.access_token)
  if truthyO resp.refresh_token then setRefreshToken st resp.refresh_token
  else st

/-- `signOut` (lines 183-193): when a truthy refresh token is supplied,
the backend notification runs with an arbitrary effect on client state
and may throw (`netCall` result flag); any error is swallowed, and the
`finally` block clears the tokens.  The returned flag is whether an error
propagates out of `signOut` (always `false`). -/
def signOut (st : ClientState) (refreshToken : Option String)
    (netCall : ClientState → ClientState × Bool) : ClientState × Bool :=
  let afterTry := if truthyO refreshToken then (netCall st).1 else st
  (clearTokens afterTry, false)

/-! ## Identity and the auth context (`src/contexts/AuthContext.tsx`,
`src/lib/api.ts` lines 178-181) -/

/-- User role (`src/types`): admin or student. -/
inductive Role where
  | admin
  | student
deriving DecidableEq, Repr

/-- Authenticated identity (`User` in `src/types`). -/
structure User where
  id : Nat
  email : String
  role : Role
deriving DecidableEq, Repr

/-- AuthProvider state: the cached identity and the loading flag. -/
structure AuthState where
  user : Option User
  loading : Bool
deriving DecidableEq, Repr

/-- Outcome of the `getCurrentUser` call as `refreshUser` observes it: an
identity, or a failure carrying `error?.response?.status` (absent on a
network error). -/
inductive MeOutcome where
  | ok (u : User)
  | err (status : Option Nat)
deriving DecidableEq, Repr

/-- The GET `/auth/me` request issued by `getCurrentUser` (line 179): it
goes through `this.client`, so the request interceptor attaches the
current access token. -/
def getCurrentUserReq (cs : ClientState) : ReqConfig :=
  interceptRequest cs { url := some "/auth/me", method := some "get" }

/-- Reading the identity from the auth context (`useAuth().user`): the
cached value, with no backend call issued. -/
def readUser (a : AuthState) : Option User × List ReqConfig :=
  (a.user, [])

/-- `refreshUser` (AuthContext lines 21-39): call `getCurrentUser`; on
success cache the identity; on a 401/403 rejection drop the identity and
clear the tokens; on any other failure drop the identity but keep the
tokens.  Returns the new auth state, the new client state, and the list
of backend requests issued. -/
def refreshUser (cs : ClientState) (outcome : MeOutcome) :
    AuthState × ClientState × List ReqConfig :=
  match outcome with
  | .ok u => ({ user := some u, loading := false }, cs, [getCurrentUserReq cs])
  | .err status =>
    if status == some 401 || status == some 403 then
      ({ user := none, loading := false }, clearTokens cs, [getCurrentUserReq cs])
    else
      ({ user := none, loading := false }, cs, [getCurrentUserReq cs])

/-! ## Error formatter (`formatApiError`, lines 330-393) -/

/-- A validation error entry (a `loc` path and a `msg`) as FastAPI sends
it. -/
structure ValErr where
  loc : Option (List String)
  msg : Option String
deriving DecidableEq, Repr

/-- The `detail` field of a failure body: a string, an array of
validation errors, or anything else (including absent). -/
inductive Detail where
  | strDetail (s : String)
  | arrDetail (errs : List ValErr)
  | otherDetail
deriving DecidableEq, Repr

/-- A failure response body. -/
structure RespData where
  detail : Detail
deriving DecidableEq, Repr

/-- The `response` field of an axios error (absent data when the server
sent none). -/
structure ErrResponse where
  data : Option RespData
deriving DecidableEq, Repr

/-- An axios error as `formatApiError` inspects it. -/
structure ApiFailure where
  response : Option ErrResponse
  code : Option String
  message : Option String
deriving DecidableEq, Repr

/-- `error?.message?.includes(pat)`. -/
def failureMsgHas (e : ApiFailure) (pat : String) : Bool :=
  jsIncludesO e.message pat

/-- `formatApiError` (variant 1, lines 330-393).  `origin` stands for
`window.location.origin` and `apiBaseUrl` for the module constant
`API_BASE_URL`; both only feed into message text. -/
def formatApiError (origin apiBaseUrl : String) (e : ApiFailure) : String :=
  match e.response with
  | none =>
    if e.code == some "ECONNABORTED" || failureMsgHas e "timeout" then
      "Request timeout. Please check your connection and try again."
    else if failureMsgHas e "CORS" || failureMsgHas e "cross-origin" then
      "CORS error. Please check backend CORS configuration allows " ++ origin
    else if e.code == some "ERR_NETWORK" || failureMsgHas e "Network Error"
        || failureMsgHas e "Failed to fetch" then
      "Network error. Please check your connection and ensure the backend server is running at "
        ++ apiBaseUrl ++ ". Check browser console for details."
    else if e.code == some "ECONNREFUSED" then
      "Connection refused. Is the backend server running at " ++ apiBaseUrl ++ "?"
    else
      jsOr e.message ("Network error. Please check your connection to "
        ++ apiBaseUrl ++ ". Check browser console for details.")
  | some resp =>
    match resp.data with
    | none => jsOr e.message "An unexpected error occurred"
    | some data =>
      match data.detail with
      | .strDetail s => s
      | .arrDetail errs =>
        String.intercalate ", " (errs.map fun err =>
          jsOr (err.loc.map fun l => String.intercalate "." (l.drop 1)) "field"
            ++ ": " ++ jsOr err.msg "Invalid value")
      | .otherDetail => "An error occurred. Please try again."

/-! ## Variant-2 request interceptor (second revision, lines 524-704)

The second revision inserts a sequence of URL-rewriting blocks before the
Authorization header is attached.  Each block mutates only `config.url`
and `config.baseURL`; they are transcribed below in source order as pure
functions on the `(url, baseURL)` pair.  Console logging has no effect on
the config and is omitted. -/

/-- The production API host the rewriting blocks look for. -/
def prodDomain : String := "internhubapi.sadn.site"

/-- The canonical production API base URL the blocks fall back to. -/
def prodApiUrl : String := "https://internhubapi.sadn.site/api/v2"

/-- Lines 528-538: when `baseURL` is truthy and mentions the production
host, rewrite a leading `http://` (then all occurrences) to `https://`,
and fall back to the canonical URL when still not HTTPS. -/
def fixA (b : Option String) : Option String :=
  if truthyO b && jsIncludes (b.getD "") prodDomain then
    let s := b.getD ""
    let s := if jsStarts s "http://" then jsHttpsAll (jsHttpsOnce s) else s
    let s := if !jsStarts s "https://" then prodApiUrl else s
    some s
  else b

/-- Lines 541-565 (production only): force `baseURL` and an absolute
`url` to HTTPS, then re-check both against the production host. -/
def fixB (u b : Option String) : Option String × Option String :=
  let b := if truthyO b then some (jsHttpsOnce (b.getD "")) else b
  let u := if truthyO u && jsStarts (u.getD "") "http://" then
             some (jsHttpsOnce (u.getD "")) else u
  if truthyO b && truthyO u then
    if jsIncludes (b.getD "") prodDomain || jsIncludes (u.getD "") prodDomain then
      let b := some (jsHttpsOnce (b.getD ""))
      let u := if jsStarts (u.getD "") "http://" then
                 some (jsHttpsOnce (u.getD "")) else u
      (u, b)
    else (u, b)
  else (u, b)

/-- Lines 568-570: optional-chained production-host check on `baseURL`. -/
def fixC (b : Option String) : Option String :=
  if jsIncludesO b prodDomain then some (jsHttpsOnce (b.getD "")) else b

/-- Lines 573-575: global host-anchored replace on `url`. -/
def fixD (u : Option String) : Option String :=
  if jsIncludesO u prodDomain then
    some (jsReplaceAll (u.getD "") "http://internhubapi.sadn.site"
      "https://internhubapi.sadn.site")
  else u

/-- The full-URL reconstruction both nuclear blocks use (lines 579-581 and
613-615): `url` when absolute, `baseURL ++ url` otherwise (JS template
interpolation renders an absent `baseURL` as the text `undefined`), and
`baseURL` alone when `url` is falsy. -/
def fullUrlOf (u b : Option String) : Option String :=
  if truthyO u then
    some (if jsStarts (u.getD "") "http" then u.getD ""
          else (b.getD "undefined") ++ u.getD "")
  else b

/-- Lines 578-594 (production only): reconstruct the full URL; when it is
an HTTP URL of the production host, either move the HTTPS form into `url`
(emptying `baseURL`) or rebuild `baseURL` around `/api/v2`. -/
def fixE (u b : Option String) : Option String × Option String :=
  let fullUrl := fullUrlOf u b
  if truthyO fullUrl && jsIncludes (fullUrl.getD "") prodDomain
      && jsStarts (fullUrl.getD "") "http://" then
    let httpsUrl := jsHttpsOnce (fullUrl.getD "")
    if truthyO u && jsStarts (u.getD "") "http" then
      (some httpsUrl, some "")
    else
      (some (jsOr u ""), some (jsSplitHead httpsUrl "/api/v2" ++ "/api/v2"))
  else (u, b)

/-- Lines 612-628 (production only): same reconstruction as lines
578-594, except `url` is left alone in the relative branch. -/
def fixG (u b : Option String) : Option String × Option String :=
  let finalUrl := fullUrlOf u b
  if truthyO finalUrl && jsIncludes (finalUrl.getD "") prodDomain
      && jsStarts (finalUrl.getD "") "http://" then
    let httpsUrl := jsHttpsOnce (finalUrl.getD "")
    if truthyO u && jsStarts (u.getD "") "http" then
      (some httpsUrl, some "")
    else
      (u, some (jsSplitHead httpsUrl "/api/v2" ++ "/api/v2"))
  else (u, b)

/-- Lines 631-652 (production, truthy `baseURL` only): absolute HTTP
`url` is rewritten in place; otherwise the combined URL is rebuilt and,
when still an HTTP production URL, `baseURL` becomes its part before the
path. -/
def fixH (u b : Option String) : Option String × Option String :=
  if truthyO u && jsStarts (u.getD "") "http://" then
    (some (jsHttpsOnce (u.getD "")), some "")
  else if truthyO u && jsStarts (u.getD "") "https://" then
    (u, b)
  else
    let base := jsHttpsOnce (b.getD "")
    let path := jsOr u ""
    let finalUrl := base ++ path
    if jsIncludes finalUrl prodDomain && jsStarts finalUrl "http://" then
      (u, some (jsSplitHead (jsHttpsOnce finalUrl) path))
    else (u, b)

/-- Lines 675-699 (production POST logging): when the reconstructed debug
URL is an HTTP production URL and `url` is absolute, the HTTPS form is
moved into `url`. -/
def fixDebug (u b method : Option String) : Option String × Option String :=
  if method == some "POST" && truthyO b && truthyO u then
    let debugUrl := if jsStarts (u.getD "") "http" then u.getD ""
                    else (b.getD "") ++ u.getD ""
    if jsIncludes debugUrl prodDomain && jsStarts debugUrl "http://" then
      if jsStarts (u.getD "") "http" then (some (jsHttpsOnce debugUrl), some "")
      else (u, b)
    else (u, b)
  else (u, b)

/-- State of the second-revision client as its request interceptor uses
it: the production flag, the in-memory access token, and the durable
`access_token` key it reloads from. -/
structure Client2 where
  isProduction : Bool
  accessToken : Option String
  storedAccessToken : Option String
deriving DecidableEq, Repr

/-- Lines 657-662: reload the access token from durable storage when a
truthy stored value differs from the in-memory one. -/
def reloadToken (c : Client2) : Client2 :=
  if truthyO c.storedAccessToken && !(c.storedAccessToken == c.accessToken) then
    { c with accessToken := c.storedAccessToken }
  else c

/-- Lines 664-672: attach the Bearer header when a token is held. -/
def attachToken2 (c : Client2) (cfg : ReqConfig) : ReqConfig :=
  if truthyO c.accessToken then
    { cfg with headers := { cfg.headers with
        authorization := some ("Bearer " ++ c.accessToken.getD "") } }
  else cfg

/-- The URL-rewriting pipeline of the second-revision interceptor, blocks
in source order; the block at lines 598-609 repeats lines 528-538
verbatim, so `fixA` appears twice. -/
def rewriteUrls (isProd : Bool) (cfg : ReqConfig) : ReqConfig :=
  let cfg := { cfg with baseURL := fixA cfg.baseURL }
  let cfg := if isProd then
               let p := fixB cfg.url cfg.baseURL
               { cfg with url := p.1, baseURL := p.2 }
             else cfg
  let cfg := { cfg with baseURL := fixC cfg.baseURL }
  let cfg := { cfg with url := fixD cfg.url }
  let cfg := if isProd then
               let p := fixE cfg.url cfg.baseURL
               { cfg with url := p.1, baseURL := p.2 }
             else cfg
  let cfg := { cfg with baseURL := fixA cfg.baseURL }
  let cfg := if isProd then
               let p := fixG cfg.url cfg.baseURL
               { cfg with url := p.1, baseURL := p.2 }
             else cfg
  if isProd && truthyO cfg.baseURL then
    let p := fixH cfg.url cfg.baseURL
    { cfg with url := p.1, baseURL := p.2 }
  else cfg

/-- The POST-logging stage (lines 675-699) as it acts on the config. -/
def debugStage (isProd : Bool) (cfg : ReqConfig) : ReqConfig :=
  if isProd then
    let p := fixDebug cfg.url cfg.baseURL cfg.method
    { cfg with url := p.1, baseURL := p.2 }
  else cfg

/-- The whole second-revision request interceptor (lines 524-702): the
URL-rewriting blocks, the token reload from durable storage, the Bearer
attachment, then the logging stage fixes. -/
def interceptRequest2 (c : Client2) (cfg : ReqConfig) : ReqConfig × Client2 :=
  let cfg := rewriteUrls c.isProduction cfg
  let c := reloadToken c
  let cfg := attachToken2 c cfg
  let cfg := debugStage c.isProduction cfg
  (cfg, c)

/-! ## Theorems -/

/-- C1, counterexample: the claim says the access token is never written
to durable storage, but after a sign-in returning tokens `t1`/`r1` the
durable `access_token` key holds `t1` (`setAccessToken`, lines 101-110,
calls `localStorage.setItem` with the access token). -/
theorem c1_access_token_persisted_counterexample :
    (signIn (initClient { access_token := none, refresh_token := none })
        { access_token := "t1", refresh_token := some "r1" }).storage.access_token
      = some "t1" := rfl

/-- C1, amended: durable storage holds at most the two keys
`access_token` and `refresh_token`; `setAccessToken` writes the access
token durably under `access_token` (removing the key when the token is
falsy), `setRefreshToken` does likewise under `refresh_token`, each
leaving the other key untouched, and `clearTokens` removes both. -/
theorem c1_amended_storage_layout (st : ClientState) (tok : Option String) :
    (setAccessToken st tok).accessToken = tok
    ∧ (setAccessToken st tok).storage.access_token
        = (if truthyO tok then tok else none)
    ∧ (setAccessToken st tok).storage.refresh_token = st.storage.refresh_token
    ∧ (setRefreshToken st tok).refreshToken = tok
    ∧ (setRefreshToken st tok).storage.refresh_token
        = (if truthyO tok then tok else none)
    ∧ (setRefreshToken st tok).storage.access_token = st.storage.access_token
    ∧ (clearTokens st).storage.access_token = none
    ∧ (clearTokens st).storage.refresh_token = none := by
  unfold setAccessToken setRefreshToken clearTokens
  by_cases h : truthyO tok = true <;> simp [h]

/-- C2: an authentication rejection is retried at most once.  If the
failed request is the refresh call, or its retry flag is set, or no
refresh token is held, the original failure propagates with no refresh
call; and any request the handler re-issues carries the retry flag, so a
second 401 on it propagates with no further refresh. -/
theorem c2_refresh_retry_at_most_once (st : ClientState) (e : AxiosErr)
    (f : String → RefreshOutcome) :
    ((isRefreshEndpoint e.config = true ∨ e.config.retry = true
        ∨ truthyO st.refreshToken = false) →
      handleResponseError st e f = (st, .reject e, false))
    ∧ ∀ st1 req issued, handleResponseError st e f = (st1, .retry req, issued) →
        req.retry = true
        ∧ ∀ (st2 : ClientState) (f2 : String → RefreshOutcome) (e2 : AxiosErr),
            e2.config = req →
            handleResponseError st2 e2 f2 = (st2, .reject e2, false) := by
  constructor
  · intro h
    have hsr : shouldRefresh st e = false := by
      unfold shouldRefresh
      rcases h with h | h | h <;> simp [h]
    simp [handleResponseError, hsr]
  · intro st1 req issued hEq
    have hret : req.retry = true := by
      unfold handleResponseError at hEq
      by_cases hsr : shouldRefresh st e = true
      · rw [if_pos hsr] at hEq
        split at hEq
        · simp only [Prod.mk.injEq, InterceptResult.retry.injEq] at hEq
          obtain ⟨-, h2, -⟩ := hEq
          rw [← h2]
        · simp at hEq
        · simp at hEq
      · rw [if_neg hsr] at hEq
        simp at hEq
    refine ⟨hret, ?_⟩
    intro st2 f2 e2 he2
    have hsr2 : shouldRefresh st2 e2 = false := by
      unfold shouldRefresh
      rw [he2, hret]
      simp
    simp [handleResponseError, hsr2]

/-- C2 witness: a 401 whose request already carries the retry flag is
propagated unchanged with no refresh call. -/
theorem c2_witness :
    handleResponseError
      { accessToken := some "t1", refreshToken := some "r1",
        storage := { access_token := some "t1", refresh_token := some "r1" },
        redirect := none }
      { config := { url := some "/internships", retry := true },
        respStatus := some 401 }
      (fun _ => .errNetwork)
      = ({ accessToken := some "t1", refreshToken := some "r1",
           storage := { access_token := some "t1", refresh_token := some "r1" },
           redirect := none },
         .reject { config := { url := some "/internships", retry := true },
                   respStatus := some 401 },
         false) :=
  (c2_refresh_retry_at_most_once _ _ _).1 (Or.inr (Or.inl rfl))

/-- C3: when the refresh attempt fails with a network/timeout error (no
response), the client state — both stored tokens included — is unchanged
and the original request error is the one propagated. -/
theorem c3_network_refresh_preserves_tokens (st : ClientState) (e : AxiosErr)
    (f : String → RefreshOutcome)
    (h401 : e.respStatus = some 401) (hretry : e.config.retry = false)
    (hep : isRefreshEndpoint e.config = false)
    (hrt : truthyO st.refreshToken = true)
    (hnet : f (st.refreshToken.getD "") = .errNetwork) :
    handleResponseError st e f = (st, .reject e, true) := by
  have hsr : shouldRefresh st e = true := by
    unfold shouldRefresh
    simp [h401, hretry, hep, hrt]
  simp [handleResponseError, hsr, hnet]

/-- C3 witness at a concrete state and request. -/
theorem c3_witness :
    handleResponseError
      { accessToken := some "t1", refreshToken := some "r1",
        storage := { access_token := some "t1", refresh_token := some "r1" },
        redirect := none }
      { config := { url := some "/internships" }, respStatus := some 401 }
      (fun _ => .errNetwork)
      = ({ accessToken := some "t1", refreshToken := some "r1",
           storage := { access_token := some "t1", refresh_token := some "r1" },
           redirect := none },
         .reject { config := { url := some "/internships" },
                   respStatus := some 401 },
         true) :=
  c3_network_refresh_preserves_tokens _ _ _ rfl rfl (by decide) (by decide) rfl

/-- C4: when the refresh attempt is rejected with 401 or 403, both
tokens are cleared from memory and durable storage, the client redirects
to the sign-in page, and a subsequent identity fetch yields no user. -/
theorem c4_auth_refresh_failure_clears_session (st : ClientState)
    (e : AxiosErr) (f : String → RefreshOutcome)
    (h401 : e.respStatus = some 401) (hretry : e.config.retry = false)
    (hep : isRefreshEndpoint e.config = false)
    (hrt : truthyO st.refreshToken = true) (s : Nat)
    (hs : f (st.refreshToken.getD "") = .errResp s)
    (hauth : s = 401 ∨ s = 403) :
    handleResponseError st e f
      = ({ accessToken := none, refreshToken := none,
           storage := { access_token := none, refresh_token := none },
           redirect := some "/login" },
         .reject e, true)
    ∧ (refreshUser (handleResponseError st e f).1 (.err (some 401))).1.user
        = none := by
  have hsr : shouldRefresh st e = true := by
    unfold shouldRefresh
    simp [h401, hretry, hep, hrt]
  have hcond : ((s == 401) || (s == 403)) = true := by
    rcases hauth with h | h <;> simp [h]
  have h1 : handleResponseError st e f
      = ({ accessToken := none, refreshToken := none,
           storage := { access_token := none, refresh_token := none },
           redirect := some "/login" },
         .reject e, true) := by
    simp [handleResponseError, hsr, hs, hcond, clearTokens]
  refine ⟨h1, ?_⟩
  rw [h1]
  rfl

/-- C4 witness at a concrete state, request and refresh rejection. -/
theorem c4_witness :
    handleResponseError
      { accessToken := some "t1", refreshToken := some "r1",
        storage := { access_token := some "t1", refresh_token := some "r1" },
        redirect := none }
      { config := { url := some "/internships" }, respStatus := some 401 }
      (fun _ => .errResp 401)
      = ({ accessToken := none, refreshToken := none,
           storage := { access_token := none, refresh_token := none },
           redirect := some "/login" },
         .reject { config := { url := some "/internships" },
                   respStatus := some 401 },
         true) :=
  (c4_auth_refresh_failure_clears_session _ _ _ rfl rfl (by decide) (by decide)
    401 rfl (Or.inl rfl)).1

/-- C5: whatever the backend notification does to the state and whether
or not it throws, `signOut` ends with both tokens cleared from memory and
durable storage and propagates no error. -/
theorem c5_sign_out_always_clears (st : ClientState) (rt : Option String)
    (netCall : ClientState → ClientState × Bool) :
    (signOut st rt netCall).2 = false
    ∧ (signOut st rt netCall).1.accessToken = none
    ∧ (signOut st rt netCall).1.refreshToken = none
    ∧ (signOut st rt netCall).1.storage.access_token = none
    ∧ (signOut st rt netCall).1.storage.refresh_token = none :=
  ⟨rfl, rfl, rfl, rfl, rfl⟩

/-- C6: the concrete scenario — sign-in yields `t1`/`r1`; a protected
call fails with 401; refresh with `r1` returns only `t2`.  The original
call is re-issued once carrying `Bearer t2` and the retry flag, the end
state stores access token `t2` with refresh token `r1` unchanged, and a
second 401 on the re-issued call triggers no further refresh. -/
theorem c6_refresh_without_rotation_scenario :
    signIn (initClient { access_token := none, refresh_token := none })
        { access_token := "t1", refresh_token := some "r1" }
      = { accessToken := some "t1", refreshToken := some "r1",
          storage := { access_token := some "t1", refresh_token := some "r1" },
          redirect := none }
    ∧ handleResponseError
        { accessToken := some "t1", refreshToken := some "r1",
          storage := { access_token := some "t1", refresh_token := some "r1" },
          redirect := none }
        { config := { url := some "/internships", method := some "get",
                      headers := { authorization := some "Bearer t1" } },
          respStatus := some 401 }
        (fun rt => if rt = "r1" then .ok { access_token := "t2" } else .errResp 401)
      = ({ accessToken := some "t2", refreshToken := some "r1",
           storage := { access_token := some "t2", refresh_token := some "r1" },
           redirect := none },
         .retry { url := some "/internships", method := some "get",
                  headers := { authorization := some "Bearer t2" },
                  retry := true },
         true)
    ∧ handleResponseError
        { accessToken := some "t2", refreshToken := some "r1",
          storage := { access_token := some "t2", refresh_token := some "r1" },
          redirect := none }
        { config := { url := some "/internships", method := some "get",
                      headers := { authorization := some "Bearer t2" },
                      retry := true },
          respStatus := some 401 }
        (fun rt => if rt = "r1" then .ok { access_token := "t2" } else .errResp 401)
      = ({ accessToken := some "t2", refreshToken := some "r1",
           storage := { access_token := some "t2", refresh_token := some "r1" },
           redirect := none },
         .reject { config := { url := some "/internships", method := some "get",
                               headers := { authorization := some "Bearer t2" },
                               retry := true },
                   respStatus := some 401 },
         false) :=
  ⟨rfl, rfl, rfl⟩

/-- The block at lines 528-538 leaves a `baseURL` that does not mention
the production host untouched. -/
theorem fixA_id {b : Option String} (h : jsIncludesO b prodDomain = false) :
    fixA b = b := by
  unfold fixA
  cases b with
  | none => simp [truthyO]
  | some s =>
    simp only [jsIncludesO] at h
    simp [h]

/-- The block at lines 568-570 leaves a `baseURL` that does not mention
the production host untouched. -/
theorem fixC_id {b : Option String} (h : jsIncludesO b prodDomain = false) :
    fixC b = b := by
  simp [fixC, h]

/-- The block at lines 573-575 leaves a `url` that does not mention the
production host untouched. -/
theorem fixD_id {u : Option String} (h : jsIncludesO u prodDomain = false) :
    fixD u = u := by
  simp [fixD, h]

/-- The URL-rewriting pipeline never touches the request headers. -/
theorem rewriteUrls_headers (p : Bool) (cfg : ReqConfig) :
    (rewriteUrls p cfg).headers = cfg.headers := by
  simp only [rewriteUrls]
  repeat' split
  all_goals rfl

/-- The URL-rewriting pipeline never touches the request method. -/
theorem rewriteUrls_method (p : Bool) (cfg : ReqConfig) :
    (rewriteUrls p cfg).method = cfg.method := by
  simp only [rewriteUrls]
  repeat' split
  all_goals rfl

/-- The URL-rewriting pipeline never touches the retry flag. -/
theorem rewriteUrls_retry (p : Bool) (cfg : ReqConfig) :
    (rewriteUrls p cfg).retry = cfg.retry := by
  simp only [rewriteUrls]
  repeat' split
  all_goals rfl

/-- The logging stage never touches the request headers. -/
theorem debugStage_headers (p : Bool) (cfg : ReqConfig) :
    (debugStage p cfg).headers = cfg.headers := by
  simp only [debugStage]
  repeat' split
  all_goals rfl

/-- The logging stage never touches the request method. -/
theorem debugStage_method (p : Bool) (cfg : ReqConfig) :
    (debugStage p cfg).method = cfg.method := by
  simp only [debugStage]
  repeat' split
  all_goals rfl

/-- The logging stage never touches the retry flag. -/
theorem debugStage_retry (p : Bool) (cfg : ReqConfig) :
    (debugStage p cfg).retry = cfg.retry := by
  simp only [debugStage]
  repeat' split
  all_goals rfl

/-- Outside production, a config that mentions the production host in
neither `url` nor `baseURL` passes the rewriting pipeline unchanged. -/
theorem rewriteUrls_id (cfg : ReqConfig)
    (hb : jsIncludesO cfg.baseURL prodDomain = false)
    (hu : jsIncludesO cfg.url prodDomain = false) :
    rewriteUrls false cfg = cfg := by
  have hA : fixA cfg.baseURL = cfg.baseURL := fixA_id hb
  have hC : fixC cfg.baseURL = cfg.baseURL := fixC_id hb
  have hD : fixD cfg.url = cfg.url := fixD_id hu
  simp [rewriteUrls, hA, hC, hD]

/-- With no truthy durable token, the reload step changes nothing. -/
theorem reloadToken_id {c : Client2}
    (h : truthyO c.storedAccessToken = false) : reloadToken c = c := by
  simp [reloadToken, h]

/-- With no truthy in-memory token, no header is attached. -/
theorem attachToken2_id {c : Client2} (h : truthyO c.accessToken = false)
    (cfg : ReqConfig) : attachToken2 c cfg = cfg := by
  simp [attachToken2, h]

/-- C7, counterexample: the claim says a request is passed through
unmodified when no access token is held, but the second-variant
interceptor rewrites an `http` production-host `baseURL` to `https` even
with no token anywhere (no Bearer header is attached). -/
theorem c7_passthrough_counterexample :
    (interceptRequest2
        { isProduction := false, accessToken := none, storedAccessToken := none }
        { url := some "/auth/me",
          baseURL := some "http://internhubapi.sadn.site/api/v2",
          method := some "get" }).1
      ≠ { url := some "/auth/me",
          baseURL := some "http://internhubapi.sadn.site/api/v2",
          method := some "get" }
    ∧ (interceptRequest2
        { isProduction := false, accessToken := none, storedAccessToken := none }
        { url := some "/auth/me",
          baseURL := some "http://internhubapi.sadn.site/api/v2",
          method := some "get" }).1.baseURL
      = some "https://internhubapi.sadn.site/api/v2"
    ∧ (interceptRequest2
        { isProduction := false, accessToken := none, storedAccessToken := none }
        { url := some "/auth/me",
          baseURL := some "http://internhubapi.sadn.site/api/v2",
          method := some "get" }).1.headers.authorization = none := by
  have hhttps : (interceptRequest2
      { isProduction := false, accessToken := none, storedAccessToken := none }
      { url := some "/auth/me",
        baseURL := some "http://internhubapi.sadn.site/api/v2",
        method := some "get" }).1.baseURL
      = some "https://internhubapi.sadn.site/api/v2" := by decide
  refine ⟨?_, hhttps, by decide⟩
  intro h
  rw [h] at hhttps
  exact absurd hhttps (by decide)

/-- C7, amended: the first-variant interceptor attaches
`Bearer <token>` when a truthy token is held and passes the request
through fully unmodified otherwise.  The second-variant interceptor,
when no token is held in memory or durable storage, attaches no header
and leaves headers, method and retry flag unchanged, but may rewrite
`url` and `baseURL` (http to https for the production host); outside
production, a request not mentioning the production host passes through
fully unmodified. -/
theorem c7_amended_authorize (st : ClientState) (cfg : ReqConfig)
    (c : Client2) :
    (truthyO st.accessToken = true →
      interceptRequest st cfg
        = { cfg with headers := { cfg.headers with
            authorization := some ("Bearer " ++ st.accessToken.getD "") } })
    ∧ (truthyO st.accessToken = false → interceptRequest st cfg = cfg)
    ∧ (truthyO c.accessToken = false → truthyO c.storedAccessToken = false →
        ((interceptRequest2 c cfg).1.headers = cfg.headers
          ∧ (interceptRequest2 c cfg).1.method = cfg.method
          ∧ (interceptRequest2 c cfg).1.retry = cfg.retry
          ∧ (interceptRequest2 c cfg).2 = c)
        ∧ (c.isProduction = false →
            jsIncludesO cfg.baseURL prodDomain = false →
            jsIncludesO cfg.url prodDomain = false →
            (interceptRequest2 c cfg).1 = cfg)) := by
  refine ⟨?_, ?_, ?_⟩
  · intro h
    unfold interceptRequest
    rw [if_pos h]
  · intro h
    unfold interceptRequest
    rw [if_neg (by simp [h])]
  · intro hm hs
    have hre : reloadToken c = c := reloadToken_id hs
    have hat := attachToken2_id hm
    constructor
    · have h1 : (interceptRequest2 c cfg).1
          = debugStage c.isProduction (rewriteUrls c.isProduction cfg) := by
        show (debugStage (reloadToken c).isProduction
            (attachToken2 (reloadToken c) (rewriteUrls c.isProduction cfg)))
          = debugStage c.isProduction (rewriteUrls c.isProduction cfg)
        rw [hre, hat]
      have h2 : (interceptRequest2 c cfg).2 = c := by
        show reloadToken c = c
        exact hre
      refine ⟨?_, ?_, ?_, h2⟩
      · rw [h1, debugStage_headers, rewriteUrls_headers]
      · rw [h1, debugStage_method, rewriteUrls_method]
      · rw [h1, debugStage_retry, rewriteUrls_retry]
    · intro hp hb hu
      have hrw : rewriteUrls c.isProduction cfg = cfg := by
        rw [hp]
        exact rewriteUrls_id cfg hb hu
      show (debugStage (reloadToken c).isProduction
          (attachToken2 (reloadToken c) (rewriteUrls c.isProduction cfg))) = cfg
      rw [hre, hat, hrw, hp]
      simp [debugStage]

/-- C7 witness: with access token `t1` held, the first-variant
interceptor attaches the Bearer header. -/
theorem c7_witness :
    interceptRequest
      { accessToken := some "t1", refreshToken := none,
        storage := { access_token := none, refresh_token := none },
        redirect := none }
      { url := some "/internships" }
      = { url := some "/internships",
          headers :=
            { authorization := some ("Bearer " ++ (some "t1" : Option String).getD "") } } :=
  (c7_amended_authorize _ _
    { isProduction := false, accessToken := none, storedAccessToken := none }).1 rfl

/-- C8: the error formatter returns a string `detail` as-is, renders a
validation-error array field-by-field (field path from `loc` minus its
first element, dot-joined, with fallbacks) joined by commas, and maps the
no-response failures to the timeout, CORS, generic-network and
connection-refused messages. -/
theorem c8_format_api_error (origin api s : String) :
    formatApiError origin api
        { response := some { data := some { detail := .strDetail s } },
          code := none, message := none } = s
    ∧ formatApiError origin api
        { response := some { data := some { detail := Detail.arrDetail (
            [ { loc := some ["body", "email"], msg := some "invalid email" },
              { loc := some ["body", "password", "length"], msg := none },
              { loc := none, msg := some "oops" } ]) } },
          code := none, message := none }
        = "email: invalid email, password.length: Invalid value, field: oops"
    ∧ formatApiError origin api
        { response := none, code := some "ECONNABORTED", message := none }
        = "Request timeout. Please check your connection and try again."
    ∧ formatApiError origin api
        { response := none, code := none, message := some "CORS request blocked" }
        = "CORS error. Please check backend CORS configuration allows " ++ origin
    ∧ formatApiError origin api
        { response := none, code := some "ERR_NETWORK", message := none }
        = "Network error. Please check your connection and ensure the backend server is running at "
            ++ api ++ ". Check browser console for details."
    ∧ formatApiError origin api
        { response := none, code := some "ECONNREFUSED", message := none }
        = "Connection refused. Is the backend server running at " ++ api ++ "?" :=
  ⟨rfl, rfl, rfl, rfl, rfl, rfl⟩

/-- C9: reading the identity from the auth context returns the cached
value with no backend request; `refreshUser` issues exactly one GET
`/auth/me` request, which carries the current access token as a Bearer
header when one is held, and on success the fetched identity is the one
returned. -/
theorem c9_identity_cache_and_fetch (a : AuthState) (cs : ClientState)
    (outcome : MeOutcome) :
    readUser a = (a.user, [])
    ∧ (refreshUser cs outcome).2.2 = [getCurrentUserReq cs]
    ∧ (truthyO cs.accessToken = true →
        (getCurrentUserReq cs).headers.authorization
          = some ("Bearer " ++ cs.accessToken.getD ""))
    ∧ ∀ u, outcome = .ok u → (refreshUser cs outcome).1.user = some u := by
  refine ⟨rfl, ?_, ?_, ?_⟩
  · cases outcome with
    | ok u => rfl
    | err status =>
      simp only [refreshUser]
      split <;> rfl
  · intro h
    unfold getCurrentUserReq interceptRequest
    rw [if_pos h]
  · intro u h
    subst h
    rfl

/-- C9 witness: with access token `t1` held, the identity fetch carries
`Bearer t1`. -/
theorem c9_witness :
    (getCurrentUserReq
        { accessToken := some "t1", refreshToken := some "r1",
          storage := { access_token := some "t1", refresh_token := some "r1" },
          redirect := none }).headers.authorization
      = some ("Bearer " ++ (some "t1" : Option String).getD "") :=
  (c9_identity_cache_and_fetch { user := none, loading := true } _
    (.ok { id := 1, email := "a@x.com", role := .student })).2.2.1 rfl

/-- C10: a failure whose status is anything but 401 never enters the
refresh path — the state (both stored tokens included) is unchanged, the
error propagates as-is, and no refresh call is issued. -/
theorem c10_non_401_passthrough (st : ClientState) (e : AxiosErr)
    (f : String → RefreshOutcome) (h : e.respStatus ≠ some 401) :
    handleResponseError st e f = (st, .reject e, false) := by
  have hb : (e.respStatus == some 401) = false := beq_eq_false_iff_ne.mpr h
  have hsr : shouldRefresh st e = false := by
    unfold shouldRefresh
    simp [hb]
  simp [handleResponseError, hsr]

/-- C10 witness: a 403 is propagated unchanged. -/
theorem c10_witness :
    handleResponseError
      { accessToken := some "t1", refreshToken := some "r1",
        storage := { access_token := some "t1", refresh_token := some "r1" },
        redirect := none }
      { config := { url := some "/internships" }, respStatus := some 403 }
      (fun _ => .errNetwork)
      = ({ accessToken := some "t1", refreshToken := some "r1",
           storage := { access_token := some "t1", refresh_token := some "r1" },
           redirect := none },
         .reject { config := { url := some "/internships" },
                   respStatus := some 403 },
         false) :=
  c10_non_401_passthrough _ _ _ (by decide)

end InternHub
